import Mathlib

/-!
Shallow embedding of `src/GarageClimate/GarageClimate.ino` (an Arduino
thermo-hygrostat sketch).  Temperature and humidity readings are C `float`
values used only through order comparisons against small integer thresholds,
so they are modelled as rationals (`Rat`), on which those comparisons are
exact.  The four `Config` thresholds are C `byte` (uint8) values, modelled as
`Nat` with explicit `% 256` at the only places the source mutates them.
Times (`millis()` stored into C `long`) are modelled as `Int`.  The global
mutable state of the sketch (`State state; Config config;` plus the `static`
locals of `processKeys` and the effect of `writeConfig`) is bundled into one
`Machine` record that the embedded functions transform.
-/

namespace GarageClimate

/-- enum Key of the source: right, up, down, left, select, none. -/
inductive Key : Type
  | right
  | up
  | down
  | left
  | select
  | none
deriving DecidableEq

/-- enum Mode of the source: idle, setLowTemp, setHighTemp, setLowHumid, setHighHumid. -/
inductive Mode : Type
  | idle
  | setLowTemp
  | setHighTemp
  | setLowHumid
  | setHighHumid
deriving DecidableEq

/-- struct Config: four `byte` thresholds. -/
structure Config : Type where
  lowTemp : Nat
  highTemp : Nat
  lowHumid : Nat
  highHumid : Nat
deriving DecidableEq

/-- struct State: current mode, the three stored sensor readings, and the two
actuator booleans (`tempOn` drives the heater relay, `humidOn` the fan relay). -/
structure State : Type where
  mode : Mode
  temp : Rat
  humid : Rat
  outdoorTemp : Rat
  tempOn : Bool
  humidOn : Bool
deriving DecidableEq

/-- The `static` locals of `processKeys`: the remembered key and the time of
the last key transition (`static Key lastKey = none; static long lastTime = 0;`). -/
structure KeyState : Type where
  lastKey : Key
  lastTime : Int
deriving DecidableEq

/-- All global mutable state of the sketch.  `saves` counts calls to
`writeConfig` (the ConfigStore persistence call), which has no other
observable effect on the modelled state. -/
structure Machine : Type where
  state : State
  config : Config
  ks : KeyState
  saves : Nat
deriving DecidableEq

/-- const long KEY_TIMEOUT = 30000. -/
def KEY_TIMEOUT : Int := 30000

/-- const long SENSORS_READ_PERIOD = 5000. -/
def SENSORS_READ_PERIOD : Int := 5000

/-- resetDefaultConfig: lowTemp 4, highTemp 6, lowHumid 60, highHumid 70. -/
def defaultConfig : Config := ⟨4, 6, 60, 70⟩

/-- bool isValidTemp(float temp) \x7b return temp > -90 && temp < 90; \x7d -/
def isValidTemp (temp : Rat) : Bool :=
  decide (temp > -90) && decide (temp < 90)

/-- bool isValidHumid(float humid) \x7b return humid >= 10 && humid <= 100; \x7d -/
def isValidHumid (humid : Rat) : Bool :=
  decide (humid ≥ 10) && decide (humid ≤ 100)

/-- void processClimate(): the climate evaluation.  Reads the globals
`state` and `config`, writes only `state.tempOn` and `state.humidOn`.
The comparisons of the source promote the `byte` thresholds to `float`,
modelled by the `Nat → Rat` cast. -/
def processClimate (m : Machine) : Machine :=
  if !(isValidTemp m.state.temp) || !(isValidHumid m.state.humid)
      || !(isValidTemp m.state.outdoorTemp) then
    { m with state := { m.state with tempOn := false, humidOn := false } }
  else
    let s1 :=
      if m.state.temp ≤ (m.config.lowTemp : Rat) then
        { m.state with tempOn := true }
      else if m.state.temp ≥ (m.config.highTemp : Rat) then
        { m.state with tempOn := false }
      else m.state
    let s2 :=
      if s1.outdoorTemp < s1.temp then
        { s1 with humidOn := false }
      else
        if s1.humid ≤ (m.config.lowHumid : Rat) then
          { s1 with humidOn := false }
        else if s1.humid ≥ (m.config.highHumid : Rat) then
          { s1 with humidOn := true }
        else s1
    { m with state := s2 }

/-- Which Config threshold a `byte* parameter` points at in the source. -/
inductive Field : Type
  | lowTemp
  | highTemp
  | lowHumid
  | highHumid
deriving DecidableEq

/-- Read a Config threshold through its field selector. -/
def Config.get (c : Config) : Field → Nat
  | Field.lowTemp => c.lowTemp
  | Field.highTemp => c.highTemp
  | Field.lowHumid => c.lowHumid
  | Field.highHumid => c.highHumid

/-- Write a Config threshold through its field selector. -/
def Config.put (c : Config) : Field → Nat → Config
  | Field.lowTemp, v => { c with lowTemp := v }
  | Field.highTemp, v => { c with highTemp := v }
  | Field.lowHumid, v => { c with lowHumid := v }
  | Field.highHumid, v => { c with highHumid := v }

/-- Addition `v + step` on a `byte` of the source: wraps modulo 256. -/
def byteAdd (v step : Nat) : Nat := (v + step) % 256

/-- Subtraction `v - step` on a `byte` of the source: wraps modulo 256
(written with `Nat` arithmetic; agrees with `(v - step) mod 256` over ℤ). -/
def byteSub (v step : Nat) : Nat := (v + (256 - step % 256)) % 256

/-- void toggleModeToIdle(): sets mode to idle and calls writeConfig
(the persistence call, counted in `saves`). -/
def toggleModeToIdle (m : Machine) : Machine :=
  { m with state := { m.state with mode := Mode.idle }, saves := m.saves + 1 }

/-- Successor cast `Mode(state.mode + 1)` of the source: the next value in
the declaration order of the enum.  `toggleMode` only applies it when the mode is not
`setHighHumid`, so the `setHighHumid` case (where the C cast would leave the
enum) is unreachable there; it is completed with `idle` so that `Mode.next`
is the full advance cycle. -/
def Mode.next : Mode → Mode
  | Mode.idle => Mode.setLowTemp
  | Mode.setLowTemp => Mode.setHighTemp
  | Mode.setHighTemp => Mode.setLowHumid
  | Mode.setLowHumid => Mode.setHighHumid
  | Mode.setHighHumid => Mode.idle

/-- void toggleMode(): from setHighHumid go to idle (saving the config),
otherwise advance the mode by one. -/
def toggleMode (m : Machine) : Machine :=
  if m.state.mode = Mode.setHighHumid then toggleModeToIdle m
  else { m with state := { m.state with mode := m.state.mode.next } }

/-- void processKeys(byte *parameter, byte step): the input state machine.
`key` is the freshly decoded key (`readKey()`), `now` the `millis()` sample
of this tick.  When the key is unchanged only the idle-timeout is evaluated;
otherwise the transition is recorded and acted on (Select advances the mode,
Up/Down edit the pointed-at threshold while not idle). -/
def processKeys (parameter : Option Field) (step : Nat) (key : Key) (now : Int)
    (m : Machine) : Machine :=
  if key = m.ks.lastKey then
    if m.state.mode ≠ Mode.idle ∧ m.ks.lastTime > 0
        ∧ now - m.ks.lastTime > KEY_TIMEOUT then
      toggleModeToIdle m
    else m
  else
    let m1 := { m with ks := { lastKey := key, lastTime := now } }
    if key = Key.select then toggleMode m1
    else if m1.state.mode = Mode.idle then m1
    else
      match parameter with
      | Option.none => m1
      | Option.some f =>
        if key = Key.up then
          { m1 with config := m1.config.put f (byteAdd (m1.config.get f) step) }
        else if key = Key.down then
          { m1 with config := m1.config.put f (byteSub (m1.config.get f) step) }
        else m1

/-- The `parameter`/`step` pair that `loop()` passes to the key machine for
each mode: NULL in idle (`processIU` calls `processKeys(NULL, 0)`), the
matching config field with step 1 (temperatures) or 5 (humidities) in the
four edit modes. -/
def modeTarget : Mode → Option (Field × Nat)
  | Mode.idle => Option.none
  | Mode.setLowTemp => Option.some (Field.lowTemp, 1)
  | Mode.setHighTemp => Option.some (Field.highTemp, 1)
  | Mode.setLowHumid => Option.some (Field.lowHumid, 5)
  | Mode.setHighHumid => Option.some (Field.highHumid, 5)

/-- The call into the key machine made by one `loop()` iteration:
dispatches on the
current mode exactly as `loop()` does (idle → `processKeys(NULL, 0)`,
edit modes → `processKeys(&field, step)` via `loopSetup`). -/
def tick (key : Key) (now : Int) (m : Machine) : Machine :=
  match modeTarget m.state.mode with
  | Option.none => processKeys Option.none 0 key now m
  | Option.some (f, st) => processKeys (Option.some f) st key now m

/-- Run a sequence of key-machine ticks, each a (key, millis) pair. -/
def runKeys (ticks : List (Key × Int)) (m : Machine) : Machine :=
  ticks.foldl (fun acc kt => tick kt.1 kt.2 acc) m

/-- The fresh sensor values the external sensors would deliver on one
`processSensors` pass (dht.readTemperature(), dht.readHumidity(),
dsSensors.getTempC(...)). -/
structure SensorInputs : Type where
  temp : Rat
  humid : Rat
  outdoorTemp : Rat
deriving DecidableEq

/-- Observable external actions of one idle-loop iteration, in order. -/
inductive Ev : Type
  | refreshUI
  | readTemp
  | readHumid
  | requestOutdoor
  | readOutdoor
  | climateEval
  | driveRelays
deriving DecidableEq

/-- void processIU(): displayIdle() (external rendering, no modelled state)
followed by processKeys(NULL, 0). -/
def processIU (key : Key) (now : Int) (m : Machine) : Machine :=
  processKeys Option.none 0 key now m

/-- void processSensors(): if strictly more than SENSORS_READ_PERIOD has
elapsed since `lastReadTime` (a `static long`, threaded explicitly), read
temperature, humidity and the outdoor sensor in order with `processIU()`
between the sub-reads, and record `now` as the new last read time; otherwise
do nothing.  The key/millis inputs are assumed stable within the iteration,
so the interleaved `processIU` calls see the same `key`/`now`.  Returns the
updated machine, the new `lastReadTime`, and the emitted event trace. -/
def processSensors (inp : SensorInputs) (key : Key) (now : Int)
    (lastReadTime : Int) (m : Machine) : Machine × Int × List Ev :=
  if now - lastReadTime > SENSORS_READ_PERIOD then
    let m1 := { m with state := { m.state with temp := inp.temp } }
    let m2 := processIU key now m1
    let m3 := { m2 with state := { m2.state with humid := inp.humid } }
    let m4 := processIU key now m3
    let m5 := processIU key now m4
    let m6 := { m5 with state := { m5.state with outdoorTemp := inp.outdoorTemp } }
    let m7 := processIU key now m6
    (m7, now,
      [Ev.readTemp, Ev.refreshUI, Ev.readHumid, Ev.refreshUI,
       Ev.requestOutdoor, Ev.refreshUI, Ev.readOutdoor, Ev.refreshUI])
  else (m, lastReadTime, [])

/-- void loopIdle(): processIU(); processSensors(); processClimate();
processRelays().  Returns the machine, the threaded `lastReadTime`, and the
event trace of the iteration (relay drive is external, captured as an event). -/
def loopIdle (inp : SensorInputs) (key : Key) (now : Int) (lastReadTime : Int)
    (m : Machine) : Machine × Int × List Ev :=
  let m1 := processIU key now m
  let r := processSensors inp key now lastReadTime m1
  let m3 := processClimate r.1
  (m3, r.2.1, Ev.refreshUI :: r.2.2 ++ [Ev.climateEval, Ev.driveRelays])

/-! Concrete machines and inputs used to instantiate the theorems below. -/

/-- An idle machine whose stored temperature reading is the invalid 100 °C. -/
def c1Machine : Machine :=
  ⟨⟨Mode.idle, 100, 50, 10, true, true⟩, defaultConfig, ⟨Key.none, 0⟩, 0⟩

/-- An idle machine with valid readings and temp 3 below the default lowTemp 4. -/
def c2Machine : Machine :=
  ⟨⟨Mode.idle, 3, 50, 10, true, false⟩, defaultConfig, ⟨Key.none, 0⟩, 0⟩

/-- An idle machine with valid readings, outdoors warmer than indoors, and
humidity 80 above the default highHumid 70. -/
def c3Machine : Machine :=
  ⟨⟨Mode.setLowTemp, 10, 80, 20, false, false⟩, defaultConfig, ⟨Key.none, 0⟩, 0⟩

/-- A machine in an edit mode whose remembered key is Up (a held key). -/
def c4Machine : Machine :=
  ⟨⟨Mode.setLowTemp, 0, 0, 0, false, false⟩, defaultConfig, ⟨Key.up, 100⟩, 0⟩

/-- The startup machine: idle, default config, no key transition recorded. -/
def c5Machine : Machine :=
  ⟨⟨Mode.idle, 0, 0, 0, false, false⟩, defaultConfig, ⟨Key.none, 0⟩, 0⟩

/-- Five Select-key edges (each separated by a release to None), all within
the 30 s timeout window. -/
def c5Edges : List (Key × Int) :=
  [(Key.select, 1), (Key.none, 2), (Key.select, 3), (Key.none, 4),
   (Key.select, 5), (Key.none, 6), (Key.select, 7), (Key.none, 8),
   (Key.select, 9)]

/-- A machine mid-edit whose last key transition (to None) happened at 1 ms. -/
def c6ChangeMachine : Machine :=
  ⟨⟨Mode.setLowTemp, 0, 0, 0, false, false⟩, defaultConfig, ⟨Key.none, 1⟩, 0⟩

/-- A machine mid-edit whose last key transition happened at 5 ms, with the
key still unchanged (None). -/
def c6HoldMachine : Machine :=
  ⟨⟨Mode.setLowTemp, 0, 0, 0, false, false⟩, defaultConfig, ⟨Key.none, 5⟩, 0⟩

/-- A machine editing lowTemp, remembered key None. -/
def c7Machine : Machine :=
  ⟨⟨Mode.setLowTemp, 0, 0, 0, false, false⟩, defaultConfig, ⟨Key.none, 2⟩, 0⟩

/-- An idle machine with stored readings (20, 50, 10). -/
def c8Machine : Machine :=
  ⟨⟨Mode.idle, 20, 50, 10, false, false⟩, defaultConfig, ⟨Key.none, 0⟩, 0⟩

/-- Fresh sensor values distinct from the stored readings of `c8Machine`. -/
def c8Inputs : SensorInputs := ⟨25, 55, 15⟩

/-- A machine fresh from startup: `lastTime` still 0, mid-edit mode. -/
def c9Machine : Machine :=
  ⟨⟨Mode.setLowTemp, 0, 0, 0, false, false⟩, defaultConfig, ⟨Key.none, 0⟩, 0⟩

/-! Helper lemmas shared by the claim theorems. -/

/-- The key machine never touches the stored temperature reading. -/
theorem processKeys_temp (p : Option Field) (st : Nat) (key : Key) (now : Int)
    (m : Machine) :
    (processKeys p st key now m).state.temp = m.state.temp := by
  unfold processKeys toggleMode toggleModeToIdle
  cases p <;> split_ifs <;> simp <;> split_ifs <;> simp

/-- The key machine never touches the stored humidity reading. -/
theorem processKeys_humid (p : Option Field) (st : Nat) (key : Key) (now : Int)
    (m : Machine) :
    (processKeys p st key now m).state.humid = m.state.humid := by
  unfold processKeys toggleMode toggleModeToIdle
  cases p <;> split_ifs <;> simp <;> split_ifs <;> simp

/-- The key machine never touches the stored outdoor reading. -/
theorem processKeys_outdoorTemp (p : Option Field) (st : Nat) (key : Key) (now : Int)
    (m : Machine) :
    (processKeys p st key now m).state.outdoorTemp = m.state.outdoorTemp := by
  unfold processKeys toggleMode toggleModeToIdle
  cases p <;> split_ifs <;> simp <;> split_ifs <;> simp

/-- The climate evaluation never touches the config. -/
theorem processClimate_config (m : Machine) :
    (processClimate m).config = m.config := by
  simp only [processClimate]
  split_ifs <;> simp

/-- The climate evaluation never touches the mode. -/
theorem processClimate_mode (m : Machine) :
    (processClimate m).state.mode = m.state.mode := by
  simp only [processClimate]
  split_ifs <;> simp

/-- The climate evaluation never touches the temperature reading. -/
theorem processClimate_temp (m : Machine) :
    (processClimate m).state.temp = m.state.temp := by
  simp only [processClimate]
  split_ifs <;> simp

/-- The climate evaluation never touches the humidity reading. -/
theorem processClimate_humid (m : Machine) :
    (processClimate m).state.humid = m.state.humid := by
  simp only [processClimate]
  split_ifs <;> simp

/-- The climate evaluation never touches the outdoor reading. -/
theorem processClimate_outdoorTemp (m : Machine) :
    (processClimate m).state.outdoorTemp = m.state.outdoorTemp := by
  simp only [processClimate]
  split_ifs <;> simp

/-- Reading back the threshold just written. -/
theorem Config.get_put_same (c : Config) (f : Field) (v : Nat) :
    (c.put f v).get f = v := by
  cases f <;> rfl

/-- Writing one threshold leaves every other threshold unchanged. -/
theorem Config.get_put_ne (c : Config) (f g : Field) (v : Nat) (h : g ≠ f) :
    (c.put f v).get g = c.get g := by
  cases f <;> cases g <;> first | rfl | exact absurd rfl h

/-- Seen over ℤ, `byteAdd` is addition modulo 256. -/
theorem byteAdd_int (v st : Nat) :
    ((byteAdd v st : Nat) : Int) = ((v : Int) + (st : Int)) % 256 := by
  unfold byteAdd
  omega

/-- Seen over ℤ, `byteSub` is subtraction modulo 256. -/
theorem byteSub_int (v st : Nat) :
    ((byteSub v st : Nat) : Int) = ((v : Int) - (st : Int)) % 256 := by
  unfold byteSub
  omega

/-- A tick whose key equals the remembered key, taken while no key
transition has ever been recorded (`lastTime = 0`), changes nothing. -/
theorem processKeys_untouched (p : Option Field) (st : Nat) (now : Int)
    (m : Machine) (h : m.ks.lastTime = 0) :
    processKeys p st m.ks.lastKey now m = m := by
  unfold processKeys
  split_ifs <;> first | rfl | simp_all

/-- Iterating such touch-free ticks changes nothing either. -/
theorem runSameKey_untouched (p : Option Field) (st : Nat) (m : Machine)
    (nows : List Int) (h : m.ks.lastTime = 0) :
    nows.foldl (fun acc now => processKeys p st acc.ks.lastKey now acc) m = m := by
  induction nows with
  | nil => rfl
  | cons a l ih =>
    rw [List.foldl_cons, processKeys_untouched p st a m h]
    exact ih

/-- C1: whenever the stored temperature reading is not strictly between
-90 and 90, or the humidity reading is not in [10, 100], or the
outdoor-temperature reading is not strictly between -90 and 90, the climate
evaluation sets both actuator booleans (heater `tempOn`, fan `humidOn`) to
false, for every config and every previous actuator state. -/
theorem c1_safety_fallback (m : Machine)
    (h : ¬(-90 < m.state.temp ∧ m.state.temp < 90) ∨
         ¬(10 ≤ m.state.humid ∧ m.state.humid ≤ 100) ∨
         ¬(-90 < m.state.outdoorTemp ∧ m.state.outdoorTemp < 90)) :
    (processClimate m).state.tempOn = false ∧
    (processClimate m).state.humidOn = false := by
  have hv : (!(isValidTemp m.state.temp) || !(isValidHumid m.state.humid)
      || !(isValidTemp m.state.outdoorTemp)) = true := by
    simp only [isValidTemp, isValidHumid, Bool.or_eq_true, Bool.not_eq_true',
      Bool.and_eq_false_iff, decide_eq_false_iff_not, not_lt, not_le]
    rcases h with h | h | h <;> rw [not_and_or] at h <;>
      rcases h with h | h <;> simp [not_lt, not_le] at h <;> tauto
  simp [processClimate, hv]

/-- Witness for C1 at a concrete invalid reading (temp 100). -/
theorem c1_safety_fallback_witness :
    (¬(-90 < c1Machine.state.temp ∧ c1Machine.state.temp < 90) ∨
     ¬(10 ≤ c1Machine.state.humid ∧ c1Machine.state.humid ≤ 100) ∨
     ¬(-90 < c1Machine.state.outdoorTemp ∧ c1Machine.state.outdoorTemp < 90)) ∧
    ((processClimate c1Machine).state.tempOn = false ∧
     (processClimate c1Machine).state.humidOn = false) :=
  ⟨by decide, c1_safety_fallback c1Machine (by decide)⟩

/-- C2: on a valid snapshot, for every config and previous heater state, the
heater rule gives: on when temp ≤ lowTemp (this boundary case taking
precedence, even when lowTemp = highTemp and temp equals both), off when
lowTemp < temp and highTemp ≤ temp, and the previous heater state when
lowTemp < temp < highTemp; both boundary comparisons inclusive. -/
theorem c2_heater_rule (m : Machine)
    (h1 : -90 < m.state.temp ∧ m.state.temp < 90)
    (h2 : 10 ≤ m.state.humid ∧ m.state.humid ≤ 100)
    (h3 : -90 < m.state.outdoorTemp ∧ m.state.outdoorTemp < 90) :
    (m.state.temp ≤ (m.config.lowTemp : Rat) →
      (processClimate m).state.tempOn = true) ∧
    ((m.config.lowTemp : Rat) < m.state.temp →
      (m.config.highTemp : Rat) ≤ m.state.temp →
      (processClimate m).state.tempOn = false) ∧
    ((m.config.lowTemp : Rat) < m.state.temp →
      m.state.temp < (m.config.highTemp : Rat) →
      (processClimate m).state.tempOn = m.state.tempOn) := by
  have hv : (!(isValidTemp m.state.temp) || !(isValidHumid m.state.humid)
      || !(isValidTemp m.state.outdoorTemp)) = false := by
    simp [isValidTemp, isValidHumid, h1.1, h1.2, h2.1, h2.2, h3.1, h3.2]
  refine ⟨?_, ?_, ?_⟩ <;> intro ha <;> try intro hb
  all_goals simp [processClimate, hv]
  all_goals split_ifs <;> first | rfl | (exfalso; linarith)

/-- Witness for C2 at a concrete valid snapshot with temp 3 ≤ lowTemp 4. -/
theorem c2_heater_rule_witness :
    (-90 < c2Machine.state.temp ∧ c2Machine.state.temp < 90) ∧
    (10 ≤ c2Machine.state.humid ∧ c2Machine.state.humid ≤ 100) ∧
    (-90 < c2Machine.state.outdoorTemp ∧ c2Machine.state.outdoorTemp < 90) ∧
    (processClimate c2Machine).state.tempOn = true :=
  ⟨by decide, by decide, by decide,
    (c2_heater_rule c2Machine (by decide) (by decide) (by decide)).1 (by decide)⟩

/-- C3: on a valid snapshot, for every config and previous fan state, the
fan rule gives: off whenever outdoorTemp < temp, regardless of humidity
(override); otherwise off when humid ≤ lowHumid, on when humid ≥ highHumid
(reached past the lowHumid case), and the previous fan state when
lowHumid < humid < highHumid. -/
theorem c3_fan_rule (m : Machine)
    (h1 : -90 < m.state.temp ∧ m.state.temp < 90)
    (h2 : 10 ≤ m.state.humid ∧ m.state.humid ≤ 100)
    (h3 : -90 < m.state.outdoorTemp ∧ m.state.outdoorTemp < 90) :
    (m.state.outdoorTemp < m.state.temp →
      (processClimate m).state.humidOn = false) ∧
    (m.state.temp ≤ m.state.outdoorTemp →
      m.state.humid ≤ (m.config.lowHumid : Rat) →
      (processClimate m).state.humidOn = false) ∧
    (m.state.temp ≤ m.state.outdoorTemp →
      (m.config.lowHumid : Rat) < m.state.humid →
      (m.config.highHumid : Rat) ≤ m.state.humid →
      (processClimate m).state.humidOn = true) ∧
    (m.state.temp ≤ m.state.outdoorTemp →
      (m.config.lowHumid : Rat) < m.state.humid →
      m.state.humid < (m.config.highHumid : Rat) →
      (processClimate m).state.humidOn = m.state.humidOn) := by
  have hv : (!(isValidTemp m.state.temp) || !(isValidHumid m.state.humid)
      || !(isValidTemp m.state.outdoorTemp)) = false := by
    simp [isValidTemp, isValidHumid, h1.1, h1.2, h2.1, h2.2, h3.1, h3.2]
  refine ⟨?_, ?_, ?_, ?_⟩ <;> intro ha <;> try intro hb
  all_goals try intro hc
  all_goals simp [processClimate, hv]
  all_goals split_ifs <;> first | rfl | (exfalso; linarith)

/-- Witness for C3 at a concrete valid snapshot with the outdoors warmer
than the indoors and humid 80 ≥ highHumid 70. -/
theorem c3_fan_rule_witness :
    (-90 < c3Machine.state.temp ∧ c3Machine.state.temp < 90) ∧
    (10 ≤ c3Machine.state.humid ∧ c3Machine.state.humid ≤ 100) ∧
    (-90 < c3Machine.state.outdoorTemp ∧ c3Machine.state.outdoorTemp < 90) ∧
    (processClimate c3Machine).state.humidOn = true :=
  ⟨by decide, by decide, by decide,
    (c3_fan_rule c3Machine (by decide) (by decide) (by decide)).2.2.1
      (by decide) (by decide) (by decide)⟩

/-- C10: the climate evaluation mutates at most the two actuator booleans:
the stored readings, the mode, and all four config thresholds are unchanged,
in the safety-fallback branch and in the hysteresis branches alike. -/
theorem c10_climate_frame (m : Machine) :
    (processClimate m).config = m.config ∧
    (processClimate m).state.mode = m.state.mode ∧
    (processClimate m).state.temp = m.state.temp ∧
    (processClimate m).state.humid = m.state.humid ∧
    (processClimate m).state.outdoorTemp = m.state.outdoorTemp :=
  ⟨processClimate_config m, processClimate_mode m, processClimate_temp m,
   processClimate_humid m, processClimate_outdoorTemp m⟩

/-- C4: on a tick whose freshly read key equals the remembered key, no
config threshold is mutated, and the machine either stays exactly as it was
or (only via the idle-timeout evaluation) goes to idle with a save — a held
key never repeats an edit or a mode advance. -/
theorem c4_held_key_frame (p : Option Field) (st : Nat) (key : Key) (now : Int)
    (m : Machine) (h : key = m.ks.lastKey) :
    (processKeys p st key now m).config = m.config ∧
    (processKeys p st key now m = m ∨
     processKeys p st key now m = toggleModeToIdle m) := by
  unfold processKeys
  rw [if_pos h]
  split_ifs
  · exact ⟨rfl, Or.inr rfl⟩
  · exact ⟨rfl, Or.inl rfl⟩

/-- Witness for C4: a held Up key in an edit mode changes nothing. -/
theorem c4_held_key_frame_witness :
    Key.up = c4Machine.ks.lastKey ∧
    ((processKeys (Option.some Field.lowTemp) 1 Key.up 200 c4Machine).config
        = c4Machine.config ∧
     (processKeys (Option.some Field.lowTemp) 1 Key.up 200 c4Machine = c4Machine ∨
      processKeys (Option.some Field.lowTemp) 1 Key.up 200 c4Machine
        = toggleModeToIdle c4Machine)) :=
  ⟨rfl, c4_held_key_frame (Option.some Field.lowTemp) 1 Key.up 200 c4Machine rfl⟩

/-- C9: while no key transition has been recorded since startup (the stored
last-change timestamp still holds its initial value 0), ticks with an
unchanged key never force the mode to idle and never trigger a persistence
call, however much clock time elapses. -/
theorem c9_no_timeout_before_first_transition (p : Option Field) (st : Nat)
    (m : Machine) (nows : List Int) (h : m.ks.lastTime = 0) :
    (nows.foldl (fun acc now => processKeys p st acc.ks.lastKey now acc) m).state.mode
        = m.state.mode ∧
    (nows.foldl (fun acc now => processKeys p st acc.ks.lastKey now acc) m).saves
        = m.saves := by
  rw [runSameKey_untouched p st m nows h]
  exact ⟨rfl, rfl⟩

/-- Witness for C9: a billion milliseconds with an unchanged key and
`lastTime = 0` leave the edit mode and the save count alone. -/
theorem c9_no_timeout_before_first_transition_witness :
    c9Machine.ks.lastTime = 0 ∧
    ((([1000000000] : List Int).foldl
        (fun acc now => processKeys Option.none 0 acc.ks.lastKey now acc)
        c9Machine).state.mode = c9Machine.state.mode ∧
     (([1000000000] : List Int).foldl
        (fun acc now => processKeys Option.none 0 acc.ks.lastKey now acc)
        c9Machine).saves = c9Machine.saves) :=
  ⟨rfl, c9_no_timeout_before_first_transition Option.none 0 c9Machine
    [1000000000] rfl⟩

/-- C5: every key transition to Select advances the mode one step along the
cycle idle → setLowTemp → setHighTemp → setLowHumid → setHighHumid → idle,
issuing the config save exactly on the setHighHumid → idle step; five
consecutive Select edges from idle return the mode to idle with exactly one
save over the whole sequence. -/
theorem c5_select_cycle :
    (∀ (p : Option Field) (st : Nat) (now : Int) (m : Machine),
        m.ks.lastKey ≠ Key.select →
        (processKeys p st Key.select now m).state.mode = m.state.mode.next ∧
        (processKeys p st Key.select now m).saves =
          (if m.state.mode = Mode.setHighHumid then m.saves + 1 else m.saves) ∧
        (processKeys p st Key.select now m).config = m.config) ∧
    ((runKeys c5Edges c5Machine).state.mode = Mode.idle ∧
     (runKeys c5Edges c5Machine).saves = 1) := by
  constructor
  · intro p st now m hne
    unfold processKeys
    rw [if_neg fun hh => hne hh.symm, if_pos rfl]
    unfold toggleMode toggleModeToIdle
    dsimp only
    split_ifs with hm <;> simp [hm, Mode.next]
  · exact ⟨by decide, by decide⟩

/-- Witness for C5: a Select edge from idle enters setLowTemp. -/
theorem c5_select_cycle_witness :
    c5Machine.ks.lastKey ≠ Key.select ∧
    ((processKeys Option.none 0 Key.select 1 c5Machine).state.mode
        = c5Machine.state.mode.next ∧
     (processKeys Option.none 0 Key.select 1 c5Machine).saves =
       (if c5Machine.state.mode = Mode.setHighHumid then c5Machine.saves + 1
        else c5Machine.saves) ∧
     (processKeys Option.none 0 Key.select 1 c5Machine).config
        = c5Machine.config) :=
  ⟨by decide, c5_select_cycle.1 Option.none 0 1 c5Machine (by decide)⟩

/-- C6 counterexample: the claim as stated also demands the timeout on a
tick whose key CHANGED.  Concretely: mode is setLowTemp, the last transition
was at 1 ms, the key changes to Up at 40000 ms (39999 ms > 30000 ms
elapsed) — yet the machine stays in setLowTemp and issues no save, because
the code only evaluates the timeout in the unchanged-key branch. -/
theorem c6_counterexample :
    c6ChangeMachine.state.mode ≠ Mode.idle ∧
    (40000 : Int) - c6ChangeMachine.ks.lastTime > KEY_TIMEOUT ∧
    (tick Key.up 40000 c6ChangeMachine).state.mode ≠ Mode.idle ∧
    (tick Key.up 40000 c6ChangeMachine).saves = c6ChangeMachine.saves := by
  decide

/-- C6 (amended): on a tick whose key equals the remembered key, with mode
not idle, a key transition already recorded (lastTime > 0), and more than
30000 ms elapsed since it, the machine forces the mode to idle and issues
exactly one save; and once in idle, an unchanged-key tick changes nothing
(no further timeout-triggered save). -/
theorem c6_idle_timeout (p : Option Field) (st : Nat) (key : Key) (now : Int)
    (m : Machine) (h : key = m.ks.lastKey) :
    (m.state.mode ≠ Mode.idle → m.ks.lastTime > 0 →
      now - m.ks.lastTime > KEY_TIMEOUT →
      (processKeys p st key now m).state.mode = Mode.idle ∧
      (processKeys p st key now m).saves = m.saves + 1) ∧
    (m.state.mode = Mode.idle → processKeys p st key now m = m) := by
  unfold processKeys
  rw [if_pos h]
  constructor
  · intro h1 h2 h3
    rw [if_pos ⟨h1, h2, h3⟩]
    exact ⟨rfl, rfl⟩
  · intro h1
    rw [if_neg]
    rintro ⟨hc, -, -⟩
    exact hc h1

/-- Witness for C6 (amended): a held key at 40000 ms, 39995 ms after the
last transition, forces idle with one save. -/
theorem c6_idle_timeout_witness :
    Key.none = c6HoldMachine.ks.lastKey ∧
    c6HoldMachine.state.mode ≠ Mode.idle ∧
    c6HoldMachine.ks.lastTime > 0 ∧
    (40000 : Int) - c6HoldMachine.ks.lastTime > KEY_TIMEOUT ∧
    ((processKeys Option.none 0 Key.none 40000 c6HoldMachine).state.mode
        = Mode.idle ∧
     (processKeys Option.none 0 Key.none 40000 c6HoldMachine).saves
        = c6HoldMachine.saves + 1) :=
  ⟨rfl, by decide, by decide, by decide,
    (c6_idle_timeout Option.none 0 Key.none 40000 c6HoldMachine rfl).1
      (by decide) (by decide) (by decide)⟩

/-- C7: on a key transition while the mode is not idle, with the mode
target field f and step st (as wired by loop()), a transition to Up adds st
to threshold f and a transition to Down subtracts st, both modulo 256 with
no clamping, leaving every other threshold untouched; and the wired step is
1 for the two temperature thresholds and 5 for the two humidity thresholds. -/
theorem c7_edit_wraparound (key : Key) (now : Int) (m : Machine)
    (f : Field) (st : Nat)
    (hmode : m.state.mode ≠ Mode.idle)
    (hkey : key ≠ m.ks.lastKey)
    (htarget : modeTarget m.state.mode = Option.some (f, st)) :
    (key = Key.up →
      ((tick key now m).config.get f : Int) =
        ((m.config.get f : Int) + (st : Int)) % 256 ∧
      ∀ g, g ≠ f → (tick key now m).config.get g = m.config.get g) ∧
    (key = Key.down →
      ((tick key now m).config.get f : Int) =
        ((m.config.get f : Int) - (st : Int)) % 256 ∧
      ∀ g, g ≠ f → (tick key now m).config.get g = m.config.get g) ∧
    ((f = Field.lowTemp ∨ f = Field.highTemp) → st = 1) ∧
    ((f = Field.lowHumid ∨ f = Field.highHumid) → st = 5) := by
  have htick : tick key now m = processKeys (Option.some f) st key now m := by
    unfold tick
    rw [htarget]
  have hst : ((f = Field.lowTemp ∨ f = Field.highTemp) → st = 1) ∧
      ((f = Field.lowHumid ∨ f = Field.highHumid) → st = 5) := by
    cases hm : m.state.mode
    all_goals rw [hm] at htarget
    all_goals simp only [modeTarget, Option.some.injEq, Prod.mk.injEq,
      reduceCtorEq] at htarget
    all_goals obtain ⟨hf, hs⟩ := htarget
    all_goals subst hf
    all_goals subst hs
    all_goals decide
  refine ⟨?_, ?_, hst.1, hst.2⟩
  · rintro rfl
    rw [htick]
    unfold processKeys
    rw [if_neg hkey]
    dsimp only
    rw [if_neg (by decide : ¬(Key.up = Key.select)), if_neg hmode, if_pos rfl]
    dsimp only
    refine ⟨?_, fun g hg => Config.get_put_ne m.config f g _ hg⟩
    rw [Config.get_put_same]
    exact byteAdd_int (m.config.get f) st
  · rintro rfl
    rw [htick]
    unfold processKeys
    rw [if_neg hkey]
    dsimp only
    rw [if_neg (by decide : ¬(Key.down = Key.select)), if_neg hmode,
      if_neg (by decide : ¬(Key.down = Key.up)), if_pos rfl]
    dsimp only
    refine ⟨?_, fun g hg => Config.get_put_ne m.config f g _ hg⟩
    rw [Config.get_put_same]
    exact byteSub_int (m.config.get f) st

/-- Witness for C7: an Up edge while editing lowTemp steps it from 4 to 5. -/
theorem c7_edit_wraparound_witness :
    c7Machine.state.mode ≠ Mode.idle ∧
    Key.up ≠ c7Machine.ks.lastKey ∧
    modeTarget c7Machine.state.mode = Option.some (Field.lowTemp, 1) ∧
    ((tick Key.up 10 c7Machine).config.get Field.lowTemp : Int) =
      ((c7Machine.config.get Field.lowTemp : Int) + (1 : Int)) % 256 :=
  ⟨by decide, by decide, rfl,
    ((c7_edit_wraparound Key.up 10 c7Machine Field.lowTemp 1 (by decide)
      (by decide) rfl).1 rfl).1⟩

/-- C8 counterexample: the claim as stated demands the read sequence when
AT LEAST 5000 ms have elapsed, but at exactly 5000 ms the code (strict
comparison) performs no read: no events are emitted and the stored
temperature stays at its old value, distinct from the fresh input. -/
theorem c8_counterexample :
    (5000 : Int) - 0 ≥ SENSORS_READ_PERIOD ∧
    (processSensors c8Inputs Key.none 5000 0 c8Machine).2.2 = [] ∧
    (processSensors c8Inputs Key.none 5000 0 c8Machine).1.state.temp
        = c8Machine.state.temp ∧
    c8Machine.state.temp ≠ c8Inputs.temp := by
  decide

/-- C8 (amended): on an idle-loop iteration the sensor read sequence
(temperature, humidity, outdoor, with a display/key refresh between the
sub-reads) followed by the climate evaluation is performed if and only if
STRICTLY MORE than 5000 ms have elapsed since the last full sample;
otherwise the stored readings are left unchanged that iteration. -/
theorem c8_sensor_period (inp : SensorInputs) (key : Key)
    (now lastReadTime : Int) (m : Machine) :
    (now - lastReadTime > SENSORS_READ_PERIOD →
      (loopIdle inp key now lastReadTime m).2.2 =
        [Ev.refreshUI, Ev.readTemp, Ev.refreshUI, Ev.readHumid, Ev.refreshUI,
         Ev.requestOutdoor, Ev.refreshUI, Ev.readOutdoor, Ev.refreshUI,
         Ev.climateEval, Ev.driveRelays] ∧
      (loopIdle inp key now lastReadTime m).1.state.temp = inp.temp ∧
      (loopIdle inp key now lastReadTime m).1.state.humid = inp.humid ∧
      (loopIdle inp key now lastReadTime m).1.state.outdoorTemp
          = inp.outdoorTemp ∧
      (loopIdle inp key now lastReadTime m).2.1 = now) ∧
    (now - lastReadTime ≤ SENSORS_READ_PERIOD →
      (loopIdle inp key now lastReadTime m).2.2 =
        [Ev.refreshUI, Ev.climateEval, Ev.driveRelays] ∧
      (loopIdle inp key now lastReadTime m).1.state.temp = m.state.temp ∧
      (loopIdle inp key now lastReadTime m).1.state.humid = m.state.humid ∧
      (loopIdle inp key now lastReadTime m).1.state.outdoorTemp
          = m.state.outdoorTemp ∧
      (loopIdle inp key now lastReadTime m).2.1 = lastReadTime) := by
  constructor
  · intro hgt
    simp [loopIdle, processSensors, hgt, processIU, processKeys_temp,
      processKeys_humid, processKeys_outdoorTemp, processClimate_temp,
      processClimate_humid, processClimate_outdoorTemp]
  · intro hle
    simp [loopIdle, processSensors, not_lt.mpr hle, processIU, processKeys_temp,
      processKeys_humid, processKeys_outdoorTemp, processClimate_temp,
      processClimate_humid, processClimate_outdoorTemp]

/-- Witness for C8 (amended): at 5001 ms elapsed the full read sequence runs
and the stored readings take the fresh input values. -/
theorem c8_sensor_period_witness :
    (5001 : Int) - 0 > SENSORS_READ_PERIOD ∧
    ((loopIdle c8Inputs Key.none 5001 0 c8Machine).2.2 =
        [Ev.refreshUI, Ev.readTemp, Ev.refreshUI, Ev.readHumid, Ev.refreshUI,
         Ev.requestOutdoor, Ev.refreshUI, Ev.readOutdoor, Ev.refreshUI,
         Ev.climateEval, Ev.driveRelays] ∧
     (loopIdle c8Inputs Key.none 5001 0 c8Machine).1.state.temp
        = c8Inputs.temp ∧
     (loopIdle c8Inputs Key.none 5001 0 c8Machine).1.state.humid
        = c8Inputs.humid ∧
     (loopIdle c8Inputs Key.none 5001 0 c8Machine).1.state.outdoorTemp
        = c8Inputs.outdoorTemp ∧
     (loopIdle c8Inputs Key.none 5001 0 c8Machine).2.1 = 5001) :=
  ⟨by decide, (c8_sensor_period c8Inputs Key.none 5001 0 c8Machine).1 (by decide)⟩

end GarageClimate
